import Mathlib

/-!
A verification development for the TrueConnect follow analyzer
(`src/main.py`).  The Python program has two parts:

* `_extract_usernames` / `analyze_instagram_data` (lines 20-59): decode two
  JSON documents, extract username sets from record lists, and return the two
  asymmetric set differences.
* `draw_list_in_columns` (lines 93-135, inside `create_pdf_report`): lay an
  alphabetically sorted list of entries out in a 3-column grid with page
  breaks, and report the final cursor position.

The embedding below models Python/JSON values as the inductive `JsonVal`,
Python exceptions as `PyErr` values in an `Except` monad, Python sets of
hashable values as `Finset PyAtom` (a Python set built by this program can
only ever hold strings or numbers: adding a list or dict raises `TypeError`),
and the PDF cursor arithmetic over `ℚ` (fpdf works in floating-point
millimetres; the program only adds, multiplies and divides by 3, which we
model exactly over the rationals).  Strings compare by Unicode code point in
Python's `sorted`, which is exactly the `LinearOrder` on `String`.
-/

namespace TrueConnect

/-- A decoded JSON value (the result of `json.load`): a string, a number, an
array, or an object with ordered string keys. -/
inductive JsonVal where
  | str (s : String)
  | num (n : Int)
  | arr (l : List JsonVal)
  | obj (fields : List (String × JsonVal))

/-- A hashable Python value that can live in one of the program's username
sets.  `usernames.add(...)` (line 29) only ever succeeds on hashable values;
in this program's data those are strings and numbers. -/
inductive PyAtom where
  | str (s : String)
  | num (n : Int)
  deriving DecidableEq

/-- The Python exceptions the analyzer can raise or catch:
`KeyError`, `IndexError` (caught at line 30), `TypeError` and
`AttributeError` (uncaught). -/
inductive PyErr where
  | keyError
  | indexError
  | typeError
  | attributeError
  deriving DecidableEq

instance {ε α : Type} [DecidableEq ε] [DecidableEq α] : DecidableEq (Except ε α) := fun x y =>
  match x, y with
  | .ok a, .ok b =>
    if h : a = b then isTrue (by rw [h]) else isFalse (fun hc => h (Except.ok.inj hc))
  | .error a, .error b =>
    if h : a = b then isTrue (by rw [h]) else isFalse (fun hc => h (Except.error.inj hc))
  | .ok _, .error _ => isFalse (fun hc => Except.noConfusion hc)
  | .error _, .ok _ => isFalse (fun hc => Except.noConfusion hc)

/-- Python `item[k]` for a string key `k`: an object looks the key up
(`KeyError` when absent); subscripting a list or a string with a string key
is a `TypeError`, as is subscripting a number. -/
def pyGetItemStr : JsonVal → String → Except PyErr JsonVal
  | .obj fields, k =>
    match List.lookup k fields with
    | some v => .ok v
    | none => .error .keyError
  | .str _, _ => .error .typeError
  | .arr _, _ => .error .typeError
  | .num _, _ => .error .typeError

/-- Python `item[0]`: the head of a list (`IndexError` when empty), the first
character of a string (`IndexError` when empty), a `KeyError` on a dict whose
keys are strings, and a `TypeError` on a number. -/
def pyGetItem0 : JsonVal → Except PyErr JsonVal
  | .arr [] => .error .indexError
  | .arr (x :: _) => .ok x
  | .str s =>
    match s.data with
    | [] => .error .indexError
    | c :: _ => .ok (.str (String.mk [c]))
  | .obj _ => .error .keyError
  | .num _ => .error .typeError

/-- Python iteration `for item in items_list`: a list yields its elements, a
dict yields its keys (as strings), a string yields its characters as
one-character strings, and a number is not iterable (`TypeError`). -/
def pyIter : JsonVal → Except PyErr (List JsonVal)
  | .arr l => .ok l
  | .obj fields => .ok (fields.map (fun kv => JsonVal.str kv.1))
  | .str s => .ok (s.data.map (fun c => JsonVal.str (String.mk [c])))
  | .num _ => .error .typeError

/-- The hashable Python values: strings and numbers.  Lists and dicts are
unhashable. -/
def toAtom : JsonVal → Option PyAtom
  | .str s => some (.str s)
  | .num n => some (.num n)
  | .arr _ => none
  | .obj _ => none

/-- Python `usernames.add(username)` (line 29): adding an unhashable value
(list/dict) raises `TypeError`; otherwise the value is inserted. -/
def pyAdd (usernames : Finset PyAtom) (v : JsonVal) : Except PyErr (Finset PyAtom) :=
  match toAtom v with
  | some a => .ok (insert a usernames)
  | none => .error .typeError

/-- The nested read `item["string_list_data"][0]["value"]` (line 28). -/
def extractValue (item : JsonVal) : Except PyErr JsonVal :=
  match pyGetItemStr item "string_list_data" with
  | .error e => .error e
  | .ok sld =>
    match pyGetItem0 sld with
    | .error e => .error e
    | .ok first => pyGetItemStr first "value"

/-- `items_list = data.get(key, []) if key else data` (line 24).  `key` is
falsy when it is `None` or the empty string.  `.get` only exists on dicts:
calling it on a list, string or number raises `AttributeError`. -/
def itemsListOf (data : JsonVal) (key : Option String) : Except PyErr JsonVal :=
  match key with
  | none => .ok data
  | some k =>
    if k = "" then .ok data
    else
      match data with
      | .obj fields => .ok ((List.lookup k fields).getD (.arr []))
      | _ => .error .attributeError

/-- The extraction loop of `_extract_usernames` (lines 26-31): per item, try
the nested read and the set insertion; `KeyError` and `IndexError` are caught
and skip the item, every other exception aborts the whole call. -/
def extractLoop : List JsonVal → Finset PyAtom → Except PyErr (Finset PyAtom)
  | [], usernames => .ok usernames
  | item :: rest, usernames =>
    match extractValue item with
    | .ok v =>
      match pyAdd usernames v with
      | .ok usernames2 => extractLoop rest usernames2
      | .error e => .error e
    | .error .keyError => extractLoop rest usernames
    | .error .indexError => extractLoop rest usernames
    | .error e => .error e

/-- `_extract_usernames` (lines 20-32). -/
def _extract_usernames (data : JsonVal) (key : Option String) : Except PyErr (Finset PyAtom) :=
  match itemsListOf data key with
  | .error e => .error e
  | .ok items_list =>
    match pyIter items_list with
    | .error e => .error e
    | .ok items => extractLoop items ∅

/-- Lines 53-59 of `analyze_instagram_data`: the part after both documents
have been decoded.  Any exception escaping `_extract_usernames` propagates. -/
def analyzeDecoded (followers_data following_data : JsonVal) :
    Except PyErr (Finset PyAtom × Finset PyAtom) :=
  match _extract_usernames followers_data none with
  | .error e => .error e
  | .ok followers =>
    match _extract_usernames following_data (some "relationships_following") with
    | .error e => .error e
    | .ok following => .ok (following \ followers, followers \ following)

/-- The errors `analyze_instagram_data` can surface: the re-raised
`FileNotFoundError` (line 49), the `ValueError` replacing a
`json.JSONDecodeError` (line 51), and any exception escaping extraction. -/
inductive AnalyzeError where
  | fileNotFound (path : String)
  | jsonDecodeError
  | extractionFailure (e : PyErr)
  deriving DecidableEq

/-- `analyze_instagram_data` (lines 35-59).  The file system is modelled as a
map from paths to the contents of readable files, and the external `json`
decoder as a map from contents to an optional document.  The order matches
the source exactly: open followers, decode followers, open following, decode
following (lines 42-51), then extract and diff (lines 53-59). -/
def analyze_instagram_data (dec : String → Option JsonVal) (fs : String → Option String)
    (followers_file following_file : String) :
    Except AnalyzeError (Finset PyAtom × Finset PyAtom) :=
  match fs followers_file with
  | none => .error (.fileNotFound followers_file)
  | some s1 =>
    match dec s1 with
    | none => .error .jsonDecodeError
    | some followers_data =>
      match fs following_file with
      | none => .error (.fileNotFound following_file)
      | some s2 =>
        match dec s2 with
        | none => .error .jsonDecodeError
        | some following_data =>
          match analyzeDecoded followers_data following_data with
          | .ok r => .ok r
          | .error e => .error (.extractionFailure e)

/-- Classifies extraction results that the loop either keeps (a string value)
or silently skips (`KeyError` / `IndexError`). -/
def skipOrStr : Except PyErr JsonVal → Bool
  | .ok (.str _) => true
  | .error .keyError => true
  | .error .indexError => true
  | _ => false

/-- The set of string values at `item["string_list_data"][0]["value"]` over
the items whose nested read succeeds. -/
def okValues : List JsonVal → Finset PyAtom
  | [] => ∅
  | item :: rest =>
    match extractValue item with
    | .ok (.str s) => insert (PyAtom.str s) (okValues rest)
    | _ => okValues rest

/-- A well-formed exported record with username `s`, in the shape the real
export uses: `{string_list_data: [{href, value, timestamp}]}`. -/
def recOf (s : String) : JsonVal :=
  .obj [("string_list_data",
    .arr [.obj [("href", .str "h"), ("value", .str s), ("timestamp", .num 0)]])]

/-- A record with no `string_list_data` key at all. -/
def badRec : JsonVal := .obj [("title", .str "x")]

/-- A concrete followers document: a plain sequence of records. -/
def followersDoc : JsonVal := .arr [recOf "a", recOf "b", recOf "c"]

/-- A concrete following document: a container with the sequence under
`relationships_following`. -/
def followingDoc : JsonVal :=
  .obj [("relationships_following", .arr [recOf "b", recOf "c", recOf "d"])]

/-- A concrete file system: only `followers.json` is readable. -/
def fsOneFile : String → Option String :=
  fun p => if p = "followers.json" then some ".." else none

/-- A concrete decoder on which the contents `".."` are undecodable. -/
def decNone : String → Option JsonVal := fun _ => none

/-- Page geometry of the output document: width, height and the four margins
(fpdf's `w`, `h`, `l_margin`, `r_margin`, `t_margin`, `b_margin`). -/
structure Geom where
  w : ℚ
  h : ℚ
  l_margin : ℚ
  r_margin : ℚ
  t_margin : ℚ
  b_margin : ℚ
  deriving DecidableEq

/-- `line_height = 7` (line 109). -/
def line_height : ℚ := 7

/-- `num_cols = 3` (line 110). -/
def num_cols : ℕ := 3

/-- The height of the title cell, `cell(0, 10, ...)` (line 100). -/
def title_cell_height : ℚ := 10

/-- `page_width = w - l_margin - r_margin` (line 107). -/
def page_width (g : Geom) : ℚ := g.w - g.l_margin - g.r_margin

/-- `col_width = page_width / 3` (line 108). -/
def col_width (g : Geom) : ℚ := page_width g / 3

/-- `f"- {user}".encode('latin-1', 'replace').decode('latin-1')` (line 131)
restricted to its sanitization part: every character latin-1 cannot represent
(code point above 255) becomes `'?'`, every other character is unchanged. -/
def sanitize_latin1 (s : String) : String :=
  String.mk (s.data.map (fun c => if c.toNat ≤ 255 then c else '?'))

/-- `safe_user` (line 131): the bullet-prefixed entry text, sanitized. -/
def safeText (user : String) : String := sanitize_latin1 ("- " ++ user)

/-- One `cell(col_width, line_height, safe_user, 0, 0)` draw instruction
(lines 130-132): the page it lands on, the `set_xy` coordinates, the text
drawn, and (as specification-only bookkeeping) the loop entry it renders. -/
structure Placement where
  page : ℕ
  x : ℚ
  y : ℚ
  user : String
  text : String
  deriving DecidableEq

/-- The renderer's mutable state during the loop of lines 119-133:
`current_y` (the block's start Y on the current page), the fpdf cursor `y`
(set by `set_xy`, left in place by `cell(..., ln=0)`), `page_item_index`,
and the current page number. -/
structure LoopState where
  current_y : ℚ
  pdf_y : ℚ
  page_item_index : ℕ
  page : ℕ
  deriving DecidableEq

/-- One iteration of the loop (lines 119-133): compute `col`/`row` from the
page-local index, break the page when the candidate Y of this row exceeds
`h - b_margin - line_height` (resetting `current_y` to the top margin and the
page-local index to 0, lines 123-128), place the cell at
`(l_margin + col * col_width, current_y + row * line_height)` (line 130),
and advance the page-local index (line 133). -/
def placeStep (g : Geom) (st : LoopState) (user : String) : Placement × LoopState :=
  let row_index0 := st.page_item_index / num_cols
  let s1 : LoopState :=
    if st.current_y + (row_index0 : ℚ) * line_height > g.h - g.b_margin - line_height then
      { current_y := g.t_margin, pdf_y := st.pdf_y, page_item_index := 0, page := st.page + 1 }
    else st
  let col_index := s1.page_item_index % num_cols
  let row_index := s1.page_item_index / num_cols
  let y := s1.current_y + (row_index : ℚ) * line_height
  let x := g.l_margin + (col_index : ℚ) * col_width g
  let p : Placement := { page := s1.page, x := x, y := y, user := user, text := safeText user }
  (p, { current_y := s1.current_y, pdf_y := y, page_item_index := s1.page_item_index + 1,
        page := s1.page })

/-- The whole `for i, user in enumerate(sorted_users)` loop (lines 119-133),
returning the placements in order together with the final state. -/
def runLoop (g : Geom) : LoopState → List String → List Placement × LoopState
  | st, [] => ([], st)
  | st, u :: us =>
    let r := placeStep g st u
    let rest := runLoop g r.2 us
    (r.1 :: rest.1, rest.2)

/-- The draw instructions a block emits: the colored marker ellipse (line 96),
the title cell (line 100), the `"  None."` cell (line 104), and the grid
cells of the loop. -/
inductive DrawOp where
  | marker
  | titleLine (text : String)
  | noneLine
  | cell (p : Placement)
  deriving DecidableEq

/-- What `draw_list_in_columns` did to the document: the draw instructions in
order, the cursor Y it leaves behind, and the page that cursor lives on. -/
structure BlockResult where
  ops : List DrawOp
  finalY : ℚ
  finalPage : ℕ
  deriving DecidableEq

/-- Selects the grid-cell instruction out of a draw instruction. -/
def cellOf : DrawOp → Option Placement
  | .cell p => some p
  | _ => none

/-- The grid-cell placements of a block, in draw order. -/
def placements (r : BlockResult) : List Placement :=
  r.ops.filterMap cellOf

/-- The loop state at the start of the block: `current_y = start_y` is the
cursor Y left by the title cell, the page-local index is 0, and the current
page is the page the block starts on (lines 112-115). -/
def initState (y1 : ℚ) (page0 : ℕ) : LoopState :=
  { current_y := y1, pdf_y := y1, page_item_index := 0, page := page0 }

/-- `draw_list_in_columns` (lines 93-135).  The Python argument `user_list`
is a set; we pass the underlying values as a list and deduplicate where the
set semantics matter (`len`, truthiness, `sorted(list(user_list))`).  The
title cell `cell(0, 10, ..., ln=1)` advances Y by 10 and, when the set is
empty, `cell(0, 7, "  None.", ln=1)` advances Y by a further 7 before the
early return (lines 103-105).  Otherwise the sorted entries are placed by the
loop and the cursor ends `line_height * 2` below the fpdf cursor left by the
last cell (line 135). -/
def draw_list_in_columns (g : Geom) (y0 : ℚ) (page0 : ℕ) (title : String)
    (user_list : List String) : BlockResult :=
  let titleText := title ++ " (" ++ toString user_list.dedup.length ++ ")"
  let y1 := y0 + title_cell_height
  if user_list.dedup = [] then
    { ops := [.marker, .titleLine titleText, .noneLine], finalY := y1 + 7, finalPage := page0 }
  else
    let sorted_users := List.insertionSort (· ≤ ·) user_list.dedup
    let r := runLoop g (initState y1 page0) sorted_users
    { ops := .marker :: .titleLine titleText :: r.1.map DrawOp.cell,
      finalY := r.2.pdf_y + line_height * 2, finalPage := r.2.page }

/-- A concrete A4-like geometry (210 by 297 with 10-unit margins). -/
def g0 : Geom :=
  { w := 210, h := 297, l_margin := 10, r_margin := 10, t_margin := 10, b_margin := 10 }

/-- A concrete loop state on the brink of the bottom bound of `g0`: the
candidate Y of row 1 is `280 + 7 = 287 > 280`. -/
def st0 : LoopState := { current_y := 280, pdf_y := 280, page_item_index := 3, page := 1 }

/-- A concrete following document shape: an object without the
`relationships_following` key. -/
def noKeyFields : List (String × JsonVal) := [("profile", JsonVal.num 1)]

lemma placeStep_user (g : Geom) (st : LoopState) (u : String) :
    ((placeStep g st u).1).user = u := rfl

lemma placeStep_text (g : Geom) (st : LoopState) (u : String) :
    ((placeStep g st u).1).text = safeText u := rfl

lemma placeStep_pdf_y (g : Geom) (st : LoopState) (u : String) :
    ((placeStep g st u).2).pdf_y = ((placeStep g st u).1).y := rfl

lemma placeStep_page (g : Geom) (st : LoopState) (u : String) :
    ((placeStep g st u).2).page = ((placeStep g st u).1).page := rfl

lemma runLoop_map_user (g : Geom) (us : List String) :
    ∀ st, ((runLoop g st us).1).map Placement.user = us := by
  induction us with
  | nil => intro st; rfl
  | cons u us ih => intro st; simp [runLoop, ih, placeStep_user]

lemma runLoop_map_text (g : Geom) (us : List String) :
    ∀ st, ((runLoop g st us).1).map Placement.text = us.map safeText := by
  induction us with
  | nil => intro st; rfl
  | cons u us ih => intro st; simp [runLoop, ih, placeStep_text]

lemma runLoop_last (g : Geom) (us : List String) (hus : us ≠ []) : ∀ st,
    ∃ ps p, (runLoop g st us).1 = ps ++ [p]
      ∧ (runLoop g st us).2.pdf_y = p.y
      ∧ (runLoop g st us).2.page = p.page := by
  induction us with
  | nil => exact absurd rfl hus
  | cons u us ih =>
    intro st
    by_cases hu : us = []
    · subst hu
      exact ⟨[], (placeStep g st u).1, rfl, rfl, rfl⟩
    · obtain ⟨ps, p, h1, h2, h3⟩ := ih hu (placeStep g st u).2
      exact ⟨(placeStep g st u).1 :: ps, p, by simp [runLoop, h1], by simp [runLoop, h2],
        by simp [runLoop, h3]⟩

lemma filterMap_cells (l : List Placement) :
    (l.map DrawOp.cell).filterMap cellOf = l := by
  induction l with
  | nil => rfl
  | cons p ps ih =>
    rw [List.map_cons, List.filterMap_cons]
    exact congrArg (List.cons p) ih

lemma placements_cons_cells (t : String) (l : List Placement) (y : ℚ) (pg : ℕ) :
    placements { ops := DrawOp.marker :: DrawOp.titleLine t :: l.map DrawOp.cell,
                 finalY := y, finalPage := pg } = l := by
  show (DrawOp.marker :: DrawOp.titleLine t :: l.map DrawOp.cell).filterMap cellOf = l
  rw [List.filterMap_cons, List.filterMap_cons]
  exact filterMap_cells l

lemma draw_nonempty (g : Geom) (y0 : ℚ) (p0 : ℕ) (t : String) (L : List String)
    (hd : L.dedup ≠ []) :
    draw_list_in_columns g y0 p0 t L =
      { ops := DrawOp.marker ::
          DrawOp.titleLine (t ++ " (" ++ toString L.dedup.length ++ ")") ::
          ((runLoop g (initState (y0 + title_cell_height) p0)
            (List.insertionSort (· ≤ ·) L.dedup)).1.map DrawOp.cell),
        finalY := (runLoop g (initState (y0 + title_cell_height) p0)
            (List.insertionSort (· ≤ ·) L.dedup)).2.pdf_y + line_height * 2,
        finalPage := (runLoop g (initState (y0 + title_cell_height) p0)
            (List.insertionSort (· ≤ ·) L.dedup)).2.page } := by
  simp only [draw_list_in_columns]
  rw [if_neg hd]

lemma block_text_map (g : Geom) (y0 : ℚ) (p0 : ℕ) (t : String) (L : List String) :
    (placements (draw_list_in_columns g y0 p0 t L)).map Placement.text =
      (List.insertionSort (· ≤ ·) L.dedup).map safeText := by
  by_cases hL : L.dedup = []
  · simp [draw_list_in_columns, hL, placements, cellOf]
  · simp [draw_list_in_columns, hL, placements_cons_cells, runLoop_map_text]

/-- C1: for every input entry list, the sequence of placed items is exactly
the lexicographically sorted order of the deduplicated input — every entry
placed once, none dropped or duplicated, in sorted order, for every geometry
(hence across any number of page breaks). -/
theorem rendered_sequence_is_sorted_dedup (g : Geom) (y0 : ℚ) (p0 : ℕ) (t : String)
    (L : List String) :
    (placements (draw_list_in_columns g y0 p0 t L)).map Placement.user =
      List.insertionSort (· ≤ ·) L.dedup
    ∧ List.Perm (List.insertionSort (· ≤ ·) L.dedup) L.dedup
    ∧ List.Sorted (· ≤ ·) (List.insertionSort (· ≤ ·) L.dedup)
    ∧ (List.insertionSort (· ≤ ·) L.dedup).Nodup := by
  refine ⟨?_, List.perm_insertionSort _ _, List.sorted_insertionSort _ _,
    ((List.perm_insertionSort _ _).nodup_iff).mpr (List.nodup_dedup L)⟩
  by_cases hL : L.dedup = []
  · simp [draw_list_in_columns, hL, placements, cellOf]
  · simp [draw_list_in_columns, hL, placements_cons_cells, runLoop_map_user]

/-- C2: whenever the candidate target Y of the current entry exceeds
`h - b_margin - line_height`, the step starts a new page, resets the block
start Y to the top margin, resets the page-local item index to 0, and places
that same entry at column 0, row 0 of the new page (the index then advances
to `0 + 1`). -/
theorem page_break_places_on_new_page (g : Geom) (st : LoopState) (u : String)
    (h : st.current_y + ((st.page_item_index / num_cols : ℕ) : ℚ) * line_height >
      g.h - g.b_margin - line_height) :
    placeStep g st u =
      ({ page := st.page + 1, x := g.l_margin, y := g.t_margin, user := u, text := safeText u },
       { current_y := g.t_margin, pdf_y := g.t_margin, page_item_index := 0 + 1,
         page := st.page + 1 }) := by
  simp only [placeStep]
  rw [if_pos h]
  simp [num_cols]

theorem page_break_places_on_new_page_witness :
    (st0.current_y + ((st0.page_item_index / num_cols : ℕ) : ℚ) * line_height >
      g0.h - g0.b_margin - line_height)
    ∧ placeStep g0 st0 "user" =
      ({ page := 2, x := 10, y := 10, user := "user", text := safeText "user" },
       { current_y := 10, pdf_y := 10, page_item_index := 1, page := 2 }) := by
  have hc : st0.current_y + ((st0.page_item_index / num_cols : ℕ) : ℚ) * line_height >
      g0.h - g0.b_margin - line_height := by
    norm_num [st0, g0, num_cols, line_height]
  refine ⟨hc, ?_⟩
  have h2 := page_break_places_on_new_page g0 st0 "user" hc
  simpa [g0, st0] using h2

/-- C6 counterexample: for the empty entry list the cursor does not advance
by two line-heights (2 × 7 = 14); it advances by the 10-unit title cell plus
one 7-unit line, 17 in total. -/
theorem empty_block_two_line_heights_counterexample :
    (draw_list_in_columns g0 50 1 "People" []).finalY ≠ 50 + 2 * line_height := by
  simp only [draw_list_in_columns, line_height, title_cell_height]
  norm_num

/-- C6 (amended): for the empty entry list the block draws the marker, the
title line and exactly one None. line, places no grid cells, stays on the
same page, and advances the cursor by the title cell height (10) plus one
line height (7). -/
theorem empty_block_renders_title_and_none (g : Geom) (y0 : ℚ) (p0 : ℕ) (t : String) :
    (∃ ttl, (draw_list_in_columns g y0 p0 t []).ops =
      [DrawOp.marker, DrawOp.titleLine ttl, DrawOp.noneLine])
    ∧ placements (draw_list_in_columns g y0 p0 t []) = []
    ∧ (draw_list_in_columns g y0 p0 t []).finalY = y0 + title_cell_height + line_height
    ∧ (draw_list_in_columns g y0 p0 t []).finalPage = p0 :=
  ⟨⟨_, rfl⟩, rfl, rfl, rfl⟩

/-- C7: for every non-empty entry list, the returned cursor Y is exactly two
line-heights below the Y of the last placed cell, and it lives on the page of
that last cell (the current page after any breaks). -/
theorem final_cursor_two_below_last_row (g : Geom) (y0 : ℚ) (p0 : ℕ) (t : String)
    (L : List String) (h : L ≠ []) :
    ∃ ps p, placements (draw_list_in_columns g y0 p0 t L) = ps ++ [p]
      ∧ (draw_list_in_columns g y0 p0 t L).finalY = p.y + line_height * 2
      ∧ (draw_list_in_columns g y0 p0 t L).finalPage = p.page := by
  have hd : L.dedup ≠ [] := by simpa [List.dedup_eq_nil] using h
  have hs : List.insertionSort (· ≤ ·) L.dedup ≠ [] := by
    intro hx
    apply hd
    have hperm := List.perm_insertionSort (· ≤ ·) L.dedup
    rw [hx] at hperm
    exact hperm.symm.eq_nil
  obtain ⟨ps, p, h1, h2, h3⟩ := runLoop_last g (List.insertionSort (· ≤ ·) L.dedup) hs
    (initState (y0 + title_cell_height) p0)
  refine ⟨ps, p, ?_, ?_, ?_⟩
  · rw [draw_nonempty g y0 p0 t L hd, placements_cons_cells, h1]
  · rw [draw_nonempty g y0 p0 t L hd]
    exact congrArg (· + line_height * 2) h2
  · rw [draw_nonempty g y0 p0 t L hd]
    exact h3

theorem final_cursor_two_below_last_row_witness :
    (["alice"] : List String) ≠ []
    ∧ ∃ ps p, placements (draw_list_in_columns g0 50 1 "T" ["alice"]) = ps ++ [p]
      ∧ (draw_list_in_columns g0 50 1 "T" ["alice"]).finalY = p.y + line_height * 2
      ∧ (draw_list_in_columns g0 50 1 "T" ["alice"]).finalPage = p.page :=
  ⟨by decide, final_cursor_two_below_last_row g0 50 1 "T" ["alice"] (by decide)⟩

/-- C9 counterexample: the text placed for entry `"a"` is `"- a"`, while the
entry text sanitized to the output encoding is just `"a"`; the placed text is
not the sanitized entry text. -/
theorem placed_text_counterexample :
    (placements (draw_list_in_columns g0 50 1 "T" ["a"])).map Placement.text = ["- a"]
    ∧ sanitize_latin1 "a" = "a"
    ∧ ("- a" : String) ≠ "a" := by
  refine ⟨?_, by decide, by decide⟩
  rw [block_text_map]
  decide

/-- C9 (amended): for every entry, the text placed at its grid position is
the entry text prefixed with the bullet marker and then sanitized to the
latin-1 output encoding; sanitization replaces every character the encoding
cannot represent (code point above 255) with the placeholder character and
leaves every representable character unchanged. -/
theorem placed_text_sanitization (g : Geom) (y0 : ℚ) (p0 : ℕ) (t : String) (L : List String) :
    (placements (draw_list_in_columns g y0 p0 t L)).map Placement.text =
      (List.insertionSort (· ≤ ·) L.dedup).map (fun u => sanitize_latin1 ("- " ++ u))
    ∧ ∀ s : String, (sanitize_latin1 s).data =
        s.data.map (fun c => if c.toNat ≤ 255 then c else '?') :=
  ⟨block_text_map g y0 p0 t L, fun _ => rfl⟩

lemma extractLoop_ok (items : List JsonVal) :
    ∀ acc : Finset PyAtom, (∀ it ∈ items, skipOrStr (extractValue it) = true) →
      extractLoop items acc = .ok (okValues items ∪ acc) := by
  induction items with
  | nil => intro acc _; simp [extractLoop, okValues]
  | cons it rest ih =>
    intro acc h
    have hit := h it (List.mem_cons_self it rest)
    have hrest : ∀ x ∈ rest, skipOrStr (extractValue x) = true :=
      fun x hx => h x (List.mem_cons_of_mem it hx)
    cases hv : extractValue it with
    | ok v =>
      cases v with
      | str s =>
        rw [hv] at hit
        simp [extractLoop, hv, pyAdd, toAtom, ih _ hrest, okValues,
          Finset.union_insert, Finset.insert_union]
      | num n => rw [hv] at hit; simp [skipOrStr] at hit
      | arr l => rw [hv] at hit; simp [skipOrStr] at hit
      | obj f => rw [hv] at hit; simp [skipOrStr] at hit
    | error e =>
      cases e with
      | keyError => simp [extractLoop, hv, ih _ hrest, okValues]
      | indexError => simp [extractLoop, hv, ih _ hrest, okValues]
      | typeError => rw [hv] at hit; simp [skipOrStr] at hit
      | attributeError => rw [hv] at hit; simp [skipOrStr] at hit

lemma mem_okValues (a : PyAtom) (items : List JsonVal) :
    a ∈ okValues items ↔
      ∃ it ∈ items, ∃ s : String, extractValue it = .ok (.str s) ∧ a = PyAtom.str s := by
  induction items with
  | nil => simp [okValues]
  | cons it rest ih =>
    cases hv : extractValue it with
    | ok v =>
      cases v with
      | str s => simp [okValues, hv, ih, Finset.mem_insert]
      | num n => simp [okValues, hv, ih]
      | arr l => simp [okValues, hv, ih]
      | obj f => simp [okValues, hv, ih]
    | error e => cases e <;> simp [okValues, hv, ih]

/-- C4: username extraction reads `record["string_list_data"][0]["value"]`
per record; on a plain sequence of records in which every nested read either
yields a string or fails with a missing key (`KeyError`) or an empty list
(`IndexError`), it silently skips the failing records and returns exactly the
set of values of the remaining records, raising nothing. -/
theorem extraction_skips_bad_records (items : List JsonVal)
    (h : ∀ it ∈ items, skipOrStr (extractValue it) = true) :
    _extract_usernames (.arr items) none = .ok (okValues items)
    ∧ ∀ a : PyAtom, a ∈ okValues items ↔
        ∃ it ∈ items, ∃ s : String, extractValue it = .ok (.str s) ∧ a = PyAtom.str s := by
  constructor
  · have hloop := extractLoop_ok items ∅ h
    simp only [_extract_usernames, itemsListOf, pyIter, Finset.union_empty] at hloop ⊢
    exact hloop
  · exact fun a => mem_okValues a items

theorem extraction_skips_bad_records_witness :
    (∀ it ∈ [badRec, recOf "alice", recOf "bob"], skipOrStr (extractValue it) = true)
    ∧ _extract_usernames (.arr [badRec, recOf "alice", recOf "bob"]) none =
        .ok {PyAtom.str "alice", PyAtom.str "bob"} :=
  ⟨by decide,
    ((extraction_skips_bad_records [badRec, recOf "alice", recOf "bob"] (by decide)).1).trans
      (by decide)⟩

/-- C3: once both documents are decoded and both extractions succeed, the
analyzer returns exactly the plain set differences
`(following - followers, followers - following)`, with no transformation of
the extracted values. -/
theorem analyzer_plain_set_differences (d1 d2 : JsonVal) (F G : Finset PyAtom)
    (hF : _extract_usernames d1 none = .ok F)
    (hG : _extract_usernames d2 (some "relationships_following") = .ok G) :
    analyzeDecoded d1 d2 = .ok (G \ F, F \ G) := by
  simp [analyzeDecoded, hF, hG]

theorem analyzer_plain_set_differences_witness :
    _extract_usernames followersDoc none =
      .ok {PyAtom.str "a", PyAtom.str "b", PyAtom.str "c"}
    ∧ _extract_usernames followingDoc (some "relationships_following") =
      .ok {PyAtom.str "b", PyAtom.str "c", PyAtom.str "d"}
    ∧ analyzeDecoded followersDoc followingDoc =
      .ok ({PyAtom.str "d"}, {PyAtom.str "a"}) := by
  have hF : _extract_usernames followersDoc none =
      .ok {PyAtom.str "a", PyAtom.str "b", PyAtom.str "c"} := by decide
  have hG : _extract_usernames followingDoc (some "relationships_following") =
      .ok {PyAtom.str "b", PyAtom.str "c", PyAtom.str "d"} := by decide
  exact ⟨hF, hG,
    (analyzer_plain_set_differences followersDoc followingDoc _ _ hF hG).trans (by decide)⟩

/-- C5 counterexample: with the followers file readable but undecodable and
the following file unreadable, the analyzer raises the malformed-input error
(`ValueError`), not the input-not-found error, even though one of the two
input paths does not resolve to a readable file. -/
theorem analyzer_error_exactness_counterexample :
    fsOneFile "following.json" = none
    ∧ analyze_instagram_data decNone fsOneFile "followers.json" "following.json" =
        .error .jsonDecodeError
    ∧ (Except.error AnalyzeError.jsonDecodeError :
        Except AnalyzeError (Finset PyAtom × Finset PyAtom)) ≠
      .error (.fileNotFound "following.json") :=
  ⟨rfl, rfl, by decide⟩

/-- C5 (amended): the analyzer checks its inputs strictly in source order —
open followers, decode followers, open following, decode following — raising
the input-not-found error for the first unreadable file and the
malformed-input error for the first undecodable contents in that order (so a
malformed followers file masks a missing following file); a successful result
requires both files to be readable and decodable, so no error case ever
yields partial result sets. -/
theorem analyzer_error_sequencing (dec : String → Option JsonVal)
    (fs : String → Option String) (f1 f2 : String) :
    (fs f1 = none → analyze_instagram_data dec fs f1 f2 = .error (.fileNotFound f1))
    ∧ (∀ s1, fs f1 = some s1 → dec s1 = none →
        analyze_instagram_data dec fs f1 f2 = .error .jsonDecodeError)
    ∧ (∀ s1 d1, fs f1 = some s1 → dec s1 = some d1 → fs f2 = none →
        analyze_instagram_data dec fs f1 f2 = .error (.fileNotFound f2))
    ∧ (∀ s1 d1 s2, fs f1 = some s1 → dec s1 = some d1 → fs f2 = some s2 → dec s2 = none →
        analyze_instagram_data dec fs f1 f2 = .error .jsonDecodeError)
    ∧ (∀ r, analyze_instagram_data dec fs f1 f2 = .ok r →
        ∃ s1 d1 s2 d2, fs f1 = some s1 ∧ dec s1 = some d1 ∧ fs f2 = some s2
          ∧ dec s2 = some d2 ∧ analyzeDecoded d1 d2 = .ok r) := by
  refine ⟨?_, ?_, ?_, ?_, ?_⟩
  · intro h1; simp [analyze_instagram_data, h1]
  · intro s1 h1 h2; simp [analyze_instagram_data, h1, h2]
  · intro s1 d1 h1 h2 h3; simp [analyze_instagram_data, h1, h2, h3]
  · intro s1 d1 s2 h1 h2 h3 h4; simp [analyze_instagram_data, h1, h2, h3, h4]
  · intro r h
    cases hf1 : fs f1 with
    | none => simp [analyze_instagram_data, hf1] at h
    | some s1 =>
      cases hd1 : dec s1 with
      | none => simp [analyze_instagram_data, hf1, hd1] at h
      | some d1 =>
        cases hf2 : fs f2 with
        | none => simp [analyze_instagram_data, hf1, hd1, hf2] at h
        | some s2 =>
          cases hd2 : dec s2 with
          | none => simp [analyze_instagram_data, hf1, hd1, hf2, hd2] at h
          | some d2 =>
            cases ha : analyzeDecoded d1 d2 with
            | ok r2 =>
              simp [analyze_instagram_data, hf1, hd1, hf2, hd2, ha] at h
              exact ⟨s1, d1, s2, d2, rfl, hd1, rfl, hd2, by rw [ha, h]⟩
            | error e =>
              simp [analyze_instagram_data, hf1, hd1, hf2, hd2, ha] at h

theorem analyzer_error_sequencing_witness :
    fsOneFile "missing.json" = none
    ∧ analyze_instagram_data decNone fsOneFile "missing.json" "followers.json" =
        .error (.fileNotFound "missing.json") :=
  ⟨rfl,
    (analyzer_error_sequencing decNone fsOneFile "missing.json" "followers.json").1 rfl⟩

/-- C8 counterexample: the same record sequence is accepted when the
following document wraps it in an object under `relationships_following`,
but a plain-sequence following document makes the analyzer fail with an
uncaught `AttributeError` (`list` has no `.get`) instead of extracting the
same username set. -/
theorem following_shape_counterexample :
    _extract_usernames (.arr [recOf "alice"]) (some "relationships_following") =
      .error .attributeError
    ∧ _extract_usernames (.obj [("relationships_following", .arr [recOf "alice"])])
        (some "relationships_following") = .ok {PyAtom.str "alice"}
    ∧ (Except.error PyErr.attributeError : Except PyErr (Finset PyAtom)) ≠
        .ok {PyAtom.str "alice"} := by
  refine ⟨by decide, by decide, by decide⟩

/-- C8 (amended): the two document positions accept different shapes.  A
following document that wraps a record sequence under
`relationships_following` extracts exactly the same set as that sequence
given directly in followers position; but a plain-sequence following
document always fails with `AttributeError`, and an object followers
document (whose keys are iterated as strings) always fails with `TypeError`
once it has at least one key. -/
theorem document_shape_handling :
    (∀ items : List JsonVal,
      _extract_usernames (.obj [("relationships_following", .arr items)])
          (some "relationships_following") =
        _extract_usernames (.arr items) none)
    ∧ (∀ l : List JsonVal,
        _extract_usernames (.arr l) (some "relationships_following") =
          .error .attributeError)
    ∧ (∀ (k : String) (v : JsonVal) (fields : List (String × JsonVal)),
        _extract_usernames (.obj ((k, v) :: fields)) none = .error .typeError) := by
  refine ⟨?_, ?_, ?_⟩
  · intro items
    simp [_extract_usernames, itemsListOf, List.lookup, pyIter]
  · intro l; rfl
  · intro k v fields
    simp [_extract_usernames, itemsListOf, pyIter, extractLoop, extractValue, pyGetItemStr]

/-- C10: when both documents decode but the following document is an object
without the `relationships_following` key, `.get` falls back to the empty
list, so the analyzer raises nothing, treats the following set as empty, and
returns `notFollowingBack = ∅` and `fans` equal to the whole followers
set. -/
theorem missing_following_key_yields_empty (d1 : JsonVal)
    (fields : List (String × JsonVal)) (F : Finset PyAtom)
    (hk : List.lookup "relationships_following" fields = none)
    (hF : _extract_usernames d1 none = .ok F) :
    analyzeDecoded d1 (.obj fields) = .ok (∅, F) := by
  have h2 : _extract_usernames (.obj fields) (some "relationships_following") = .ok ∅ := by
    simp only [_extract_usernames, itemsListOf]
    rw [if_neg (by decide : ¬("relationships_following" : String) = "")]
    rw [hk]
    rfl
  simp [analyzeDecoded, hF, h2, Finset.empty_sdiff, Finset.sdiff_empty]

theorem missing_following_key_yields_empty_witness :
    List.lookup "relationships_following" noKeyFields = none
    ∧ _extract_usernames (JsonVal.arr [recOf "x"]) none = .ok {PyAtom.str "x"}
    ∧ analyzeDecoded (JsonVal.arr [recOf "x"]) (.obj noKeyFields) =
        .ok (∅, {PyAtom.str "x"}) := by
  have h1 : List.lookup "relationships_following" noKeyFields = none := rfl
  have h2 : _extract_usernames (JsonVal.arr [recOf "x"]) none = .ok {PyAtom.str "x"} := by
    decide
  exact ⟨h1, h2, missing_following_key_yields_empty (JsonVal.arr [recOf "x"]) noKeyFields _ h1 h2⟩

end TrueConnect
